import Mathlib

/-!
# NamespacedController: the criteria matcher and the reconcile loop

A shallow embedding of `src/controller.go`.

* Go strings are Lean `String`s; `==` on strings is exact, case-sensitive equality.
* A Go `map[string]string` is `GoMap`: `none` is the nil map, `some l` a non-nil map given
  by its entries (the first entry under a key is the one the map holds).
* A Go `[]string` is `GoSlice`: `none` is the nil slice, `some l` a non-nil slice.
* `client.Get`, `fmt.Errorf` and `log.Info` belong to libraries outside the repository and
  are modelled by their documented behaviour; the effects of `Reconcile` are recorded in
  a trace of events, in program order.
* The constructor call in `Reconcile` (lines 30-35) is taken as it is written: the four
  arguments are bound by position to the declared parameters and checked against the types
  of the fields they reach.
-/

namespace NamespacedController

/-! ## Go values -/

/-- A Go `map[string]string`; `none` is the nil map. -/
abbrev GoMap := Option (List (String × String))

/-- A Go `[]string`; `none` is the nil slice. -/
abbrev GoSlice := Option (List String)

/-- The two-result index expression `v, ok := m[k]`: `none` when the key is absent (always
so in the nil map), `some v` when it is present. -/
def GoMap.get? (m : GoMap) (k : String) : Option String :=
  match m with
  | none => none
  | some l => l.lookup k

/-- The one-result index expression `m[k]`: the stored value, or the zero value `""` of
`string` when the key is absent or the map is nil. It never fails. -/
def GoMap.index (m : GoMap) (k : String) : String :=
  match GoMap.get? m k with
  | none => ""
  | some v => v

/-- The assignment `m[k] = v` on a copy of a map (a nil map is first made non-nil). -/
def GoMap.set (m : GoMap) (k v : String) : GoMap :=
  match m with
  | none => some [(k, v)]
  | some l => some ((k, v) :: l.filter (fun e => e.1 != k))

/-- The elements a `range` over the slice visits, in order; none for the nil slice. -/
def GoSlice.elems (s : GoSlice) : List String :=
  match s with
  | none => []
  | some l => l

/-! ## The data model of `controller.go` -/

/-- The fields of `v1.Namespace` that the controller reads: `ns.Name`, `ns.Labels`,
`ns.Annotations`. -/
structure Namespace where
  Name : String
  Labels : GoMap
  Annotations : GoMap
  deriving DecidableEq, Repr

/-- The struct `DynamicNamespacePredicate` (lines 62-67). -/
structure DynamicNamespacePredicate where
  LabelKey : String
  LabelValues : GoSlice
  AnnotationKey : String
  AnnotationValues : GoSlice
  deriving DecidableEq, Repr

/-- The function `NewDynamicNamespacePredicate` (lines 70-80); the parameters are in the
order of the declaration: `labelKey, annotationKey string, labelValues, annotationValues
[]string`. -/
def NewDynamicNamespacePredicate (labelKey annotationKey : String)
    (labelValues annotationValues : GoSlice) : DynamicNamespacePredicate :=
  DynamicNamespacePredicate.mk labelKey labelValues annotationKey annotationValues

/-- The zero value `DynamicNamespacePredicate{}`: empty keys, nil slices. -/
def zeroPredicate : DynamicNamespacePredicate :=
  DynamicNamespacePredicate.mk "" none "" none

/-! ## `CheckNamespace` -/

/-- The loop `for _, val := range vals { if x == val { return true } }`: `true` when the
loop returns `true`, `false` when it runs to its end. -/
def rangeReturnsTrue (x : String) : List String → Bool
  | [] => false
  | val :: rest => if x == val then true else rangeReturnsTrue x rest

/-- The method `CheckNamespace` (lines 83-105), on a non-nil receiver and a non-nil
namespace. -/
def CheckNamespace (p : DynamicNamespacePredicate) (ns : Namespace) : Bool :=
  -- Check labels
  let labelReturn :=
    if p.LabelKey != "" then
      let labelValue := GoMap.index ns.Labels p.LabelKey
      rangeReturnsTrue labelValue (GoSlice.elems p.LabelValues)
    else false
  if labelReturn then true
  else
    -- Check annotations
    let annotationReturn :=
      if p.AnnotationKey != "" then
        let annotationValue := GoMap.index ns.Annotations p.AnnotationKey
        rangeReturnsTrue annotationValue (GoSlice.elems p.AnnotationValues)
      else false
    if annotationReturn then true
    else false

/-- The ways a Go call can fail at run time that are within reach of `CheckNamespace`. -/
inductive GoPanic where
  | nilPointerDereference
  deriving DecidableEq, Repr

/-- The method `CheckNamespace` (lines 83-105) on pointers, as it is declared: `p` and
`ns` may be nil, and reading a field through a nil pointer panics. The field reads are
`p.LabelKey` (line 85), `ns.Labels` (line 86, only when the label key is non-empty),
`p.AnnotationKey` (line 95) and `ns.Annotations` (line 96, only when the annotation key is
non-empty). -/
def CheckNamespacePtr (p : Option DynamicNamespacePredicate) (ns : Option Namespace) :
    Except GoPanic Bool :=
  match p with
  | none => Except.error GoPanic.nilPointerDereference
  | some p =>
    let annotations : Except GoPanic Bool :=
      if p.AnnotationKey != "" then
        match ns with
        | none => Except.error GoPanic.nilPointerDereference
        | some n =>
          Except.ok
            (rangeReturnsTrue (GoMap.index n.Annotations p.AnnotationKey)
              (GoSlice.elems p.AnnotationValues))
      else Except.ok false
    if p.LabelKey != "" then
      match ns with
      | none => Except.error GoPanic.nilPointerDereference
      | some n =>
        if rangeReturnsTrue (GoMap.index n.Labels p.LabelKey) (GoSlice.elems p.LabelValues)
        then Except.ok true
        else annotations
    else annotations

/-! ## The criterion, in the words of the specification and as the code evaluates it -/

/-- A criterion as the specification words it: the key is non-empty, the map contains the
key, and the value stored under it is an element of the allowed values. -/
def SpecCriterionMatches (key : String) (allowed : GoSlice) (m : GoMap) : Prop :=
  key ≠ "" ∧ ∃ v, GoMap.get? m key = some v ∧ v ∈ GoSlice.elems allowed

/-- A criterion as the code evaluates it: the key is non-empty and the result of the index
expression `m[key]` (the empty string when the key is absent) is an element of the allowed
values. -/
def IndexCriterionMatches (key : String) (allowed : GoSlice) (m : GoMap) : Prop :=
  key ≠ "" ∧ GoMap.index m key ∈ GoSlice.elems allowed

instance (key : String) (allowed : GoSlice) (m : GoMap) :
    Decidable (IndexCriterionMatches key allowed m) := by
  unfold IndexCriterionMatches; exact inferInstance

/-! ## The reconcile loop -/

/-- The library type `types.NamespacedName`, the key of a request. -/
structure NamespacedName where
  Namespace : String
  Name : String
  deriving DecidableEq, Repr

/-- The library type `ctrl.Request`. -/
structure Request where
  NamespacedName : NamespacedName
  deriving DecidableEq, Repr

/-- The library type `ctrl.Result`: whether to requeue, and after how long (nanoseconds). -/
structure Result where
  Requeue : Bool
  RequeueAfter : Int
  deriving DecidableEq, Repr

/-- The zero value `ctrl.Result{}`. -/
def Result.zero : Result := Result.mk false 0

/-- A non-nil Go `error`: one that wraps nothing, with its message, or one that wraps a
cause, with its message and the cause. -/
inductive GoError where
  | leaf (msg : String)
  | wrapped (msg : String) (cause : GoError)
  deriving DecidableEq, Repr

/-- The method `Error()` of an error: its message. -/
def GoError.Error : GoError → String
  | GoError.leaf msg => msg
  | GoError.wrapped msg _ => msg

/-- The function `errors.Unwrap`: the wrapped cause, if any. -/
def GoError.Unwrap : GoError → Option GoError
  | GoError.leaf _ => none
  | GoError.wrapped _ cause => some cause

/-- The call `fmt.Errorf(text + "%w", err)`: the new error's message is `text` followed by
the message of `err`, and it unwraps to `err`. -/
def errorfWrap (text : String) (err : GoError) : GoError :=
  GoError.wrapped (text ++ GoError.Error err) err

/-- The read collaborator, `r.client.Get(ctx, key, ns)`: for a key it either fails with an
error or fills `ns` with the namespace it read. The context is passed through unread. -/
abbrev Client := NamespacedName → Except GoError Namespace

/-- The calls `Reconcile` makes, recorded in program order. -/
inductive Event where
  | clientGet (key : NamespacedName)
  | checkNamespace (p : DynamicNamespacePredicate) (ns : Namespace)
  | logInfo (msg : String) (keysAndValues : List String)
  deriving DecidableEq, Repr

/-- Whether the event is a call of `r.client.Get`. -/
def Event.isClientGet : Event → Bool
  | Event.clientGet _ => true
  | _ => false

/-- Whether the event is a call of `predicate.CheckNamespace`. -/
def Event.isCheckNamespace : Event → Bool
  | Event.checkNamespace _ _ => true
  | _ => false

/-- Whether the event is a call of `log.Info`. -/
def Event.isLogInfo : Event → Bool
  | Event.logInfo _ _ => true
  | _ => false

/-- What one invocation of `Reconcile` comes to: the pair `(ctrl.Result, error)` it returns,
with `none` for the nil error, or no pair at all when the invocation reaches a statement
that cannot be carried out and so never arrives at a `return`; together with the calls it
made. -/
structure ReconcileReturn where
  returned : Option (Result × Option GoError)
  trace : List Event
  deriving DecidableEq, Repr

/-- The `error` of the returned pair: `some` for a non-nil error, `none` for the nil error
and when no pair is returned. -/
def ReconcileReturn.err (r : ReconcileReturn) : Option GoError :=
  match r.returned with
  | none => none
  | some (_, err) => err

/-- The record emitted at line 41:
`log.Info("Reconciling resources in namespace with dynamic values", "namespace", ns.Name)`. -/
def actionRecord (ns : Namespace) : Event :=
  Event.logInfo "Reconciling resources in namespace with dynamic values" ["namespace", ns.Name]

/-! ## The call of the constructor in `Reconcile`, argument by argument -/

/-- A Go value of one of the two types that occur in the constructor call: a `string` or a
`[]string`. -/
inductive GoValue where
  | string (s : String)
  | stringSlice (l : GoSlice)
  deriving DecidableEq, Repr

/-- The struct literal of lines 74-79 with the type of each field's value left open: what
each field receives, whatever its type. -/
structure FieldBinding where
  LabelKey : GoValue
  LabelValues : GoValue
  AnnotationKey : GoValue
  AnnotationValues : GoValue
  deriving DecidableEq, Repr

/-- The function `NewDynamicNamespacePredicate` (lines 70-80) by position alone: the
parameters are, in the declared order, `labelKey`, `annotationKey`, `labelValues`,
`annotationValues` (lines 71-72), and the body gives each parameter to the field of its
name (lines 75-78). -/
def bindNewDynamicNamespacePredicate
    (labelKey annotationKey labelValues annotationValues : GoValue) : FieldBinding :=
  FieldBinding.mk labelKey labelValues annotationKey annotationValues

/-- Go's type check of the bound fields against the struct declaration (lines 62-67):
`LabelKey` and `AnnotationKey` must be strings, `LabelValues` and `AnnotationValues` string
slices; `none` when a field receives a value of the other type. -/
def FieldBinding.typeCheck (b : FieldBinding) : Option DynamicNamespacePredicate :=
  match b.LabelKey, b.LabelValues, b.AnnotationKey, b.AnnotationValues with
  | GoValue.string labelKey, GoValue.stringSlice labelValues,
      GoValue.string annotationKey, GoValue.stringSlice annotationValues =>
    some (DynamicNamespacePredicate.mk labelKey labelValues annotationKey annotationValues)
  | _, _, _, _ => none

/-- The call at lines 30-35, with its four arguments in the order they are written:
`"app"`, `[]string{"staging", "production"}`, `"env"`, `[]string{"staging", "production"}`. -/
def reconcileCallBinding : FieldBinding :=
  bindNewDynamicNamespacePredicate
    (GoValue.string "app")
    (GoValue.stringSlice (some ["staging", "production"]))
    (GoValue.string "env")
    (GoValue.stringSlice (some ["staging", "production"]))

/-- The body of `Reconcile` (lines 22-44) with the outcome of the constructor call of lines
30-35 as a parameter: `some predicate` when the call builds `predicate`, `none` when it
builds none. The read comes first (lines 24-27) and returns on failure. After a successful
read the call is reached: when it builds no predicate the invocation stops there, with no
matcher call, no log record and no returned pair; when it builds one, lines 36-43 run on
it. -/
def ReconcileWith (built : Option DynamicNamespacePredicate) (client : Client)
    (req : Request) : ReconcileReturn :=
  -- Get the namespace
  match client req.NamespacedName with
  | Except.error err =>
    ReconcileReturn.mk (some (Result.zero, some (errorfWrap "failed to get namespace: " err)))
      [Event.clientGet req.NamespacedName]
  | Except.ok ns =>
    -- Check if namespace matches our dynamic criteria
    match built with
    | none => ReconcileReturn.mk none [Event.clientGet req.NamespacedName]
    | some predicate =>
      if !(CheckNamespace predicate ns) then
        -- Skip if doesn't match
        ReconcileReturn.mk (some (Result.zero, none))
          [Event.clientGet req.NamespacedName, Event.checkNamespace predicate ns]
      else
        ReconcileReturn.mk (some (Result.zero, none))
          [Event.clientGet req.NamespacedName, Event.checkNamespace predicate ns,
            actionRecord ns]

/-- The method `Reconcile` (lines 22-44): its body, with the constructor call of lines 30-35
as it is written, the four arguments bound by position and checked against the types of the
fields. -/
def Reconcile (client : Client) (req : Request) : ReconcileReturn :=
  ReconcileWith (FieldBinding.typeCheck reconcileCallBinding) client req

/-! ## The watch predicates -/

/-- The library type `predicate.Funcs`, with the two fields `SetupWithManager` sets; the
objects are of the watched kind. -/
structure Funcs (Object : Type) where
  AddFunc : Object → Bool
  UpdateFunc : Object → Object → Bool

/-- The `predicate.Funcs` literal that `SetupWithManager` passes to `WithPredicates`
(lines 50-57). -/
def setupPredicates (Object : Type) : Funcs Object :=
  Funcs.mk
    (fun _obj => true) -- We'll filter in Reconcile
    (fun _oldObj _newObj => true) -- We'll filter in Reconcile

/-! ## Shared lemmas -/

theorem rangeReturnsTrue_iff (x : String) (vals : List String) :
    rangeReturnsTrue x vals = true ↔ x ∈ vals := by
  induction vals with
  | nil => simp [rangeReturnsTrue]
  | cons val rest ih =>
    by_cases h : x = val
    · simp [rangeReturnsTrue, h]
    · simp [rangeReturnsTrue, h, ih]

theorem CheckNamespace_iff_index (p : DynamicNamespacePredicate) (ns : Namespace) :
    CheckNamespace p ns = true ↔
      IndexCriterionMatches p.LabelKey p.LabelValues ns.Labels ∨
      IndexCriterionMatches p.AnnotationKey p.AnnotationValues ns.Annotations := by
  unfold CheckNamespace IndexCriterionMatches
  by_cases hl : p.LabelKey = "" <;> by_cases ha : p.AnnotationKey = "" <;>
    simp [hl, ha, rangeReturnsTrue_iff]

theorem get?_nil_eq_empty (k : String) : GoMap.get? none k = GoMap.get? (some []) k := by
  simp [GoMap.get?]

theorem index_of_get?_some {m : GoMap} {k v : String} (h : GoMap.get? m k = some v) :
    GoMap.index m k = v := by
  simp [GoMap.index, h]

theorem index_of_get?_none {m : GoMap} {k : String} (h : GoMap.get? m k = none) :
    GoMap.index m k = "" := by
  simp [GoMap.index, h]

theorem IndexCriterionMatches_of_spec {key : String} {allowed : GoSlice} {m : GoMap}
    (h : SpecCriterionMatches key allowed m) : IndexCriterionMatches key allowed m := by
  obtain ⟨hk, v, hv, hmem⟩ := h
  exact ⟨hk, by rw [index_of_get?_some hv]; exact hmem⟩

theorem IndexCriterionMatches_iff (key : String) (allowed : GoSlice) (m : GoMap) :
    IndexCriterionMatches key allowed m ↔
      SpecCriterionMatches key allowed m ∨
      (key ≠ "" ∧ GoMap.get? m key = none ∧ "" ∈ GoSlice.elems allowed) := by
  constructor
  · rintro ⟨hk, hmem⟩
    rcases Option.eq_none_or_eq_some (GoMap.get? m key) with hg | ⟨v, hg⟩
    · right
      rw [index_of_get?_none hg] at hmem
      exact ⟨hk, hg, hmem⟩
    · left
      rw [index_of_get?_some hg] at hmem
      exact ⟨hk, v, hg, hmem⟩
  · rintro (h | ⟨hk, hg, hmem⟩)
    · exact IndexCriterionMatches_of_spec h
    · exact ⟨hk, by rw [index_of_get?_none hg]; exact hmem⟩

theorem CheckNamespace_eq_false_iff (p : DynamicNamespacePredicate) (ns : Namespace) :
    CheckNamespace p ns = false ↔
      ¬ IndexCriterionMatches p.LabelKey p.LabelValues ns.Labels ∧
      ¬ IndexCriterionMatches p.AnnotationKey p.AnnotationValues ns.Annotations := by
  rw [← not_or, ← CheckNamespace_iff_index]
  simp

theorem Reconcile_of_get_error {client : Client} {req : Request} {e : GoError}
    (h : client req.NamespacedName = Except.error e) :
    Reconcile client req =
      ReconcileReturn.mk (some (Result.zero, some (errorfWrap "failed to get namespace: " e)))
        [Event.clientGet req.NamespacedName] := by
  simp [Reconcile, ReconcileWith, h]

theorem get?_set_self (m : GoMap) (k v : String) : GoMap.get? (GoMap.set m k v) k = some v := by
  cases m <;> simp [GoMap.set, GoMap.get?, List.lookup]

theorem index_set_empty_of_absent {m : GoMap} {k : String} (h : GoMap.get? m k = none) :
    GoMap.index (GoMap.set m k "") k = GoMap.index m k := by
  rw [index_of_get?_some (get?_set_self m k ""), index_of_get?_none h]

/-! ## The criteria matcher -/

/-- C1, the claim as stated fails: with the allowed label values `[""]` and a namespace
whose label map has no entry under the key `app`, `CheckNamespace` returns `true`, while
neither criterion matches in the sense of the claim (key present with an allowed value). -/
theorem C1_absent_key_counterexample :
    CheckNamespace (DynamicNamespacePredicate.mk "app" (some [""]) "" none)
        (Namespace.mk "default" (some [("team", "core")]) none) = true ∧
      ¬ (SpecCriterionMatches "app" (some [""]) (some [("team", "core")]) ∨
          SpecCriterionMatches "" none none) := by
  refine ⟨by decide, ?_⟩
  rintro (⟨_, v, hv, _⟩ | ⟨hk, _⟩)
  · simp [GoMap.get?, List.lookup] at hv
  · exact hk rfl

/-- C1, amended: `CheckNamespace p ns` returns `true` if and only if the label criterion or
the annotation criterion holds, where a criterion holds when its key is non-empty and
either the map contains the key with a value that is an element of the allowed values, or
the map does not contain the key and the empty string is an element of the allowed values.
Membership is exact string equality. -/
theorem C1_CheckNamespace_iff (p : DynamicNamespacePredicate) (ns : Namespace) :
    CheckNamespace p ns = true ↔
      ((SpecCriterionMatches p.LabelKey p.LabelValues ns.Labels ∨
          (p.LabelKey ≠ "" ∧ GoMap.get? ns.Labels p.LabelKey = none ∧
            "" ∈ GoSlice.elems p.LabelValues)) ∨
        (SpecCriterionMatches p.AnnotationKey p.AnnotationValues ns.Annotations ∨
          (p.AnnotationKey ≠ "" ∧ GoMap.get? ns.Annotations p.AnnotationKey = none ∧
            "" ∈ GoSlice.elems p.AnnotationValues))) := by
  rw [CheckNamespace_iff_index, IndexCriterionMatches_iff, IndexCriterionMatches_iff]

/-- C2: matching is OR across the two criteria. If the label criterion matches (key
non-empty, present in the labels with an allowed value) or the annotation criterion matches
(likewise on the annotations), `CheckNamespace` returns `true`, whatever the other criterion
and the other map are. -/
theorem C2_or_across_criteria (p : DynamicNamespacePredicate) (ns : Namespace)
    (h : SpecCriterionMatches p.LabelKey p.LabelValues ns.Labels ∨
      SpecCriterionMatches p.AnnotationKey p.AnnotationValues ns.Annotations) :
    CheckNamespace p ns = true := by
  rw [CheckNamespace_iff_index]
  exact h.imp IndexCriterionMatches_of_spec IndexCriterionMatches_of_spec

/-- C2 at a concrete input: the label criterion does not match (`app` is `dev`), the
annotation criterion does (`env` is `staging`), and `CheckNamespace` returns `true`. -/
theorem C2_or_across_criteria_witness :
    ¬ SpecCriterionMatches "app" (some ["staging", "production"]) (some [("app", "dev")]) ∧
      CheckNamespace
        (DynamicNamespacePredicate.mk "app" (some ["staging", "production"])
          "env" (some ["staging", "production"]))
        (Namespace.mk "ns1" (some [("app", "dev")]) (some [("env", "staging")])) = true := by
  refine ⟨?_, C2_or_across_criteria _ _ (Or.inr ⟨by decide, "staging", by decide, ?_⟩)⟩
  · rintro ⟨_, v, hv, hmem⟩
    have hv2 : v = "dev" := by
      simp [GoMap.get?, List.lookup] at hv
      exact hv.symm
    subst hv2
    revert hmem
    decide
  · simp [GoSlice.elems]

/-- C3, the claim as stated fails: with `LabelKey = ""`, annotation key `env`, allowed
annotation values `[""]` and a namespace with nil maps, `CheckNamespace` returns `true`,
while the annotation criterion does not match (the key `env` is not present). -/
theorem C3_empty_label_key_counterexample :
    (DynamicNamespacePredicate.mk "" none "env" (some [""])).LabelKey = "" ∧
      CheckNamespace (DynamicNamespacePredicate.mk "" none "env" (some [""]))
        (Namespace.mk "default" none none) = true ∧
      ¬ SpecCriterionMatches "env" (some [""]) none := by
  refine ⟨rfl, by decide, ?_⟩
  rintro ⟨_, v, hv, _⟩
  simp [GoMap.get?] at hv

/-- C3, amended: a criterion with an empty key never matches. With `LabelKey = ""` the
result is `true` exactly when the annotation key is non-empty and either the annotations
contain it with an allowed value, or they do not contain it and the empty string is an
allowed annotation value, whatever the labels and the allowed label values are;
symmetrically with `AnnotationKey = ""`; and with both keys empty the result is `false` for
every namespace. -/
theorem C3_empty_key_never_matches (p : DynamicNamespacePredicate) (ns : Namespace) :
    (p.LabelKey = "" →
        (CheckNamespace p ns = true ↔
          (SpecCriterionMatches p.AnnotationKey p.AnnotationValues ns.Annotations ∨
            (p.AnnotationKey ≠ "" ∧ GoMap.get? ns.Annotations p.AnnotationKey = none ∧
              "" ∈ GoSlice.elems p.AnnotationValues)))) ∧
      (p.AnnotationKey = "" →
        (CheckNamespace p ns = true ↔
          (SpecCriterionMatches p.LabelKey p.LabelValues ns.Labels ∨
            (p.LabelKey ≠ "" ∧ GoMap.get? ns.Labels p.LabelKey = none ∧
              "" ∈ GoSlice.elems p.LabelValues)))) ∧
      (p.LabelKey = "" → p.AnnotationKey = "" → CheckNamespace p ns = false) := by
  refine ⟨fun hl => ?_, fun ha => ?_, fun hl ha => ?_⟩
  · rw [CheckNamespace_iff_index, ← IndexCriterionMatches_iff]
    simp [IndexCriterionMatches, hl]
  · rw [CheckNamespace_iff_index, ← IndexCriterionMatches_iff]
    simp [IndexCriterionMatches, ha]
  · rw [CheckNamespace_eq_false_iff]
    simp [IndexCriterionMatches, hl, ha]

/-- C3 at a concrete input: both keys are empty, both maps hold an entry under the key `""`
whose value is in the allowed list, and `CheckNamespace` returns `false`. -/
theorem C3_empty_key_never_matches_witness :
    CheckNamespace (DynamicNamespacePredicate.mk "" (some ["x"]) "" (some ["y"]))
      (Namespace.mk "ns1" (some [("", "x")]) (some [("", "y")])) = false :=
  (C3_empty_key_never_matches (DynamicNamespacePredicate.mk "" (some ["x"]) "" (some ["y"]))
    (Namespace.mk "ns1" (some [("", "x")]) (some [("", "y")]))).2.2 rfl rfl

/-- C4, the claim as stated fails: on a namespace with nil `Labels` and nil `Annotations`
the predicate with label key `app` and allowed label values `["", "staging"]` returns
`true`. -/
theorem C4_nil_maps_counterexample :
    CheckNamespace
      (DynamicNamespacePredicate.mk "app" (some ["", "staging"]) "env" (some ["staging"]))
      (Namespace.mk "default" none none) = true := by
  decide

/-- C4, amended: on a namespace with nil `Labels` and nil `Annotations`, `CheckNamespace`
returns `true` exactly when a criterion with a non-empty key has the empty string among its
allowed values; for every other predicate it returns `false`. -/
theorem C4_nil_maps_iff (p : DynamicNamespacePredicate) (name : String) :
    CheckNamespace p (Namespace.mk name none none) = true ↔
      ((p.LabelKey ≠ "" ∧ "" ∈ GoSlice.elems p.LabelValues) ∨
        (p.AnnotationKey ≠ "" ∧ "" ∈ GoSlice.elems p.AnnotationValues)) := by
  rw [CheckNamespace_iff_index]
  simp [IndexCriterionMatches, GoMap.index, GoMap.get?]

/-- C5: `CheckNamespace` is total and treats an absent map as an empty map. On a non-nil
receiver and a non-nil namespace the call returns a boolean and does not panic, whether the
maps are nil or not; and the result on a nil `Labels` (resp. `Annotations`) map equals the
result on an empty one. -/
theorem C5_total_nil_as_empty (p : DynamicNamespacePredicate) (ns : Namespace) :
    CheckNamespacePtr (some p) (some ns) = Except.ok (CheckNamespace p ns) ∧
      CheckNamespace p (Namespace.mk ns.Name none ns.Annotations) =
        CheckNamespace p (Namespace.mk ns.Name (some []) ns.Annotations) ∧
      CheckNamespace p (Namespace.mk ns.Name ns.Labels none) =
        CheckNamespace p (Namespace.mk ns.Name ns.Labels (some [])) ∧
      CheckNamespace p (Namespace.mk ns.Name none none) =
        CheckNamespace p (Namespace.mk ns.Name (some []) (some [])) := by
  refine ⟨?_, ?_, ?_, ?_⟩
  · unfold CheckNamespacePtr CheckNamespace
    by_cases hl : p.LabelKey = "" <;> by_cases ha : p.AnnotationKey = "" <;>
      simp [hl, ha] <;> split <;> simp_all
  all_goals simp [CheckNamespace, GoMap.index, GoMap.get?]

/-- C6: for the predicate with label key `app`, annotation key `env` and allowed values
`["staging", "production"]` on both, `CheckNamespace` returns `true` if and only if the
label `app` is exactly `staging` or `production`, or the annotation `env` is exactly
`staging` or `production`. An absent key, the empty string, the substring `prod` and the
case variant `Production` do not match. On labels `{app: production}` with no annotations
the result is `true`; on labels `{app: dev}` with annotations `{env: qa}` it is `false`. -/
theorem C6_app_env_predicate :
    (∀ ns : Namespace,
        CheckNamespace
            (DynamicNamespacePredicate.mk "app" (some ["staging", "production"])
              "env" (some ["staging", "production"])) ns = true ↔
          (GoMap.get? ns.Labels "app" = some "staging" ∨
            GoMap.get? ns.Labels "app" = some "production" ∨
            GoMap.get? ns.Annotations "env" = some "staging" ∨
            GoMap.get? ns.Annotations "env" = some "production")) ∧
      (∀ ns : Namespace,
        GoMap.get? ns.Labels "app" ∈ [none, some "", some "prod", some "Production"] →
        GoMap.get? ns.Annotations "env" ∈ [none, some "", some "prod", some "Production"] →
          CheckNamespace
            (DynamicNamespacePredicate.mk "app" (some ["staging", "production"])
              "env" (some ["staging", "production"])) ns = false) ∧
      (∀ name : String,
        CheckNamespace
          (DynamicNamespacePredicate.mk "app" (some ["staging", "production"])
            "env" (some ["staging", "production"]))
          (Namespace.mk name (some [("app", "production")]) (some [])) = true) ∧
      (∀ name : String,
        CheckNamespace
          (DynamicNamespacePredicate.mk "app" (some ["staging", "production"])
            "env" (some ["staging", "production"]))
          (Namespace.mk name (some [("app", "dev")]) (some [("env", "qa")])) = false) := by
  have key : ∀ ns : Namespace,
      CheckNamespace
          (DynamicNamespacePredicate.mk "app" (some ["staging", "production"])
            "env" (some ["staging", "production"])) ns = true ↔
        (GoMap.get? ns.Labels "app" = some "staging" ∨
          GoMap.get? ns.Labels "app" = some "production" ∨
          GoMap.get? ns.Annotations "env" = some "staging" ∨
          GoMap.get? ns.Annotations "env" = some "production") := by
    intro ns
    rw [CheckNamespace_iff_index]
    simp only [IndexCriterionMatches, GoMap.index, GoSlice.elems]
    rcases Option.eq_none_or_eq_some (GoMap.get? ns.Labels "app") with hl | ⟨v, hl⟩ <;>
      rcases Option.eq_none_or_eq_some (GoMap.get? ns.Annotations "env") with ha | ⟨w, ha⟩ <;>
      simp [hl, ha, or_assoc]
  refine ⟨key, ?_, ?_, ?_⟩
  · intro ns hl ha
    rw [← Bool.not_eq_true, key]
    simp only [List.mem_cons, List.mem_singleton, List.not_mem_nil, or_false] at hl ha
    rcases hl with hl | hl | hl | hl <;> rcases ha with ha | ha | ha | ha <;>
      rw [hl, ha] <;> decide
  · intro name
    rw [key]
    dsimp only
    decide
  · intro name
    rw [← Bool.not_eq_true, key]
    dsimp only
    decide

/-- C6 at a concrete input: the label `app` is the case variant `Production` and the
annotation `env` is absent, and `CheckNamespace` returns `false`. -/
theorem C6_app_env_predicate_witness :
    CheckNamespace
      (DynamicNamespacePredicate.mk "app" (some ["staging", "production"])
        "env" (some ["staging", "production"]))
      (Namespace.mk "ns1" (some [("app", "Production")]) none) = false :=
  C6_app_env_predicate.2.1 (Namespace.mk "ns1" (some [("app", "Production")]) none)
    (by decide) (by decide)

/-- C7: a criterion with empty allowed values never matches, and the empty criteria set
matches nothing. When `LabelValues` is nil or zero-length the result is `true` exactly when
the annotation criterion holds, and symmetrically; when both lists are nil or zero-length
the result is `false` for every namespace and any keys; and the zero-value predicate
returns `false` for every namespace. -/
theorem C7_empty_allowed_values (p : DynamicNamespacePredicate) (ns : Namespace) :
    ((p.LabelValues = none ∨ p.LabelValues = some []) →
        (CheckNamespace p ns = true ↔
          IndexCriterionMatches p.AnnotationKey p.AnnotationValues ns.Annotations)) ∧
      ((p.AnnotationValues = none ∨ p.AnnotationValues = some []) →
        (CheckNamespace p ns = true ↔
          IndexCriterionMatches p.LabelKey p.LabelValues ns.Labels)) ∧
      ((p.LabelValues = none ∨ p.LabelValues = some []) →
        (p.AnnotationValues = none ∨ p.AnnotationValues = some []) →
          CheckNamespace p ns = false) ∧
      CheckNamespace zeroPredicate ns = false := by
  refine ⟨fun hl => ?_, fun ha => ?_, fun hl ha => ?_, ?_⟩
  · rw [CheckNamespace_iff_index]
    rcases hl with hl | hl <;> simp [IndexCriterionMatches, GoSlice.elems, hl]
  · rw [CheckNamespace_iff_index]
    rcases ha with ha | ha <;> simp [IndexCriterionMatches, GoSlice.elems, ha]
  · rw [CheckNamespace_eq_false_iff]
    rcases hl with hl | hl <;> rcases ha with ha | ha <;>
      simp [IndexCriterionMatches, GoSlice.elems, hl, ha]
  · rw [CheckNamespace_eq_false_iff]
    simp [IndexCriterionMatches, zeroPredicate]

/-- C7 at a concrete input: both keys are set and present in the namespace, the label
values are the nil slice and the annotation values a zero-length slice, and
`CheckNamespace` returns `false`. -/
theorem C7_empty_allowed_values_witness :
    CheckNamespace (DynamicNamespacePredicate.mk "app" none "env" (some []))
      (Namespace.mk "ns1" (some [("app", "staging")]) (some [("env", "staging")])) = false :=
  (C7_empty_allowed_values (DynamicNamespacePredicate.mk "app" none "env" (some []))
    (Namespace.mk "ns1" (some [("app", "staging")]) (some [("env", "staging")]))).2.2.1
    (Or.inl rfl) (Or.inr rfl)

/-! ## The reconcile loop -/

/-- C8: if `client.Get` fails with cause `e`, `Reconcile` returns a non-nil error whose
message is `failed to get namespace: ` followed by the message of `e` and which unwraps to
`e`; it calls `client.Get` exactly once (no retry), never calls `CheckNamespace`, and emits
no log record, so the action record is not emitted. -/
theorem C8_fetch_failure (client : Client) (req : Request) (e : GoError)
    (h : client req.NamespacedName = Except.error e) :
    (∃ err, (Reconcile client req).err = some err ∧
        GoError.Error err = "failed to get namespace: " ++ GoError.Error e ∧
        GoError.Unwrap err = some e) ∧
      (Reconcile client req).trace = [Event.clientGet req.NamespacedName] ∧
      ((Reconcile client req).trace.filter Event.isClientGet).length = 1 ∧
      (Reconcile client req).trace.filter Event.isCheckNamespace = [] ∧
      (Reconcile client req).trace.filter Event.isLogInfo = [] := by
  rw [Reconcile_of_get_error h]
  exact ⟨⟨_, rfl, rfl, rfl⟩, rfl, rfl, rfl, rfl⟩

/-- C8 at a concrete input: the read fails with a timeout; the returned error carries the
message `failed to get namespace: timeout` and the only call made is the one read. -/
theorem C8_fetch_failure_witness :
    (∃ err, (Reconcile (fun _ => Except.error (GoError.leaf "timeout"))
          (Request.mk (NamespacedName.mk "" "ns1"))).err = some err ∧
        GoError.Error err = "failed to get namespace: " ++ GoError.Error (GoError.leaf "timeout") ∧
        GoError.Unwrap err = some (GoError.leaf "timeout")) ∧
      (Reconcile (fun _ => Except.error (GoError.leaf "timeout"))
          (Request.mk (NamespacedName.mk "" "ns1"))).trace =
        [Event.clientGet (NamespacedName.mk "" "ns1")] :=
  have h := C8_fetch_failure (fun _ => Except.error (GoError.leaf "timeout"))
    (Request.mk (NamespacedName.mk "" "ns1")) (GoError.leaf "timeout") rfl
  ⟨h.1, h.2.1⟩

/-- C12, the code at the call of lines 30-35: the arguments are written as key, values, key,
values, and the declaration takes them as `labelKey`, `annotationKey`, `labelValues`,
`annotationValues`, so by position the field `AnnotationKey` receives the string slice
`["staging", "production"]` and the field `LabelValues` receives the string `"env"`. The
binding does not type-check, and it is not the binding of each argument to the field of the
same meaning. -/
theorem C12_call_site_binding :
    reconcileCallBinding.LabelKey = GoValue.string "app" ∧
      reconcileCallBinding.LabelValues = GoValue.string "env" ∧
      reconcileCallBinding.AnnotationKey =
        GoValue.stringSlice (some ["staging", "production"]) ∧
      reconcileCallBinding.AnnotationValues =
        GoValue.stringSlice (some ["staging", "production"]) ∧
      FieldBinding.typeCheck reconcileCallBinding = none ∧
      reconcileCallBinding ≠
        FieldBinding.mk (GoValue.string "app")
          (GoValue.stringSlice (some ["staging", "production"]))
          (GoValue.string "env")
          (GoValue.stringSlice (some ["staging", "production"])) ∧
      FieldBinding.typeCheck
          (FieldBinding.mk (GoValue.string "app")
            (GoValue.stringSlice (some ["staging", "production"]))
            (GoValue.string "env")
            (GoValue.stringSlice (some ["staging", "production"]))) =
        some (DynamicNamespacePredicate.mk "app" (some ["staging", "production"])
          "env" (some ["staging", "production"])) := by
  refine ⟨rfl, rfl, rfl, rfl, rfl, by decide, rfl⟩

/-- C13: watch-level filtering is fully permissive for create and update. The `AddFunc`
registered by `SetupWithManager` returns `true` for every object and the `UpdateFunc`
returns `true` for every pair of old and new object, of any kind; in particular for every
namespace, whatever its name, labels and annotations. -/
theorem C13_watch_predicates_permissive :
    (∀ (Object : Type) (obj : Object), (setupPredicates Object).AddFunc obj = true) ∧
      (∀ (Object : Type) (oldObj newObj : Object),
        (setupPredicates Object).UpdateFunc oldObj newObj = true) ∧
      (∀ (name : String) (labels annotations : GoMap),
        (setupPredicates Namespace).AddFunc (Namespace.mk name labels annotations) = true) ∧
      (∀ (name1 name2 : String) (labels1 annotations1 labels2 annotations2 : GoMap),
        (setupPredicates Namespace).UpdateFunc (Namespace.mk name1 labels1 annotations1)
          (Namespace.mk name2 labels2 annotations2) = true) :=
  ⟨fun _ _ => rfl, fun _ _ _ => rfl, fun _ _ _ => rfl, fun _ _ _ _ _ _ => rfl⟩

/-- C14: `CheckNamespace` cannot distinguish an absent key from a key present with the
empty-string value. When the key `p.LabelKey` is absent from `ns.Labels`, the result on `ns`
equals the result on `ns` with `Labels[p.LabelKey]` set to `""`; likewise for
`p.AnnotationKey` in `ns.Annotations`; and there is a predicate whose allowed label values
contain `""` and a namespace lacking the label key on which the result is `true`. -/
theorem C14_absent_key_as_empty_value (p : DynamicNamespacePredicate) (ns : Namespace) :
    (GoMap.get? ns.Labels p.LabelKey = none →
        CheckNamespace p ns =
          CheckNamespace p
            (Namespace.mk ns.Name (GoMap.set ns.Labels p.LabelKey "") ns.Annotations)) ∧
      (GoMap.get? ns.Annotations p.AnnotationKey = none →
        CheckNamespace p ns =
          CheckNamespace p
            (Namespace.mk ns.Name ns.Labels (GoMap.set ns.Annotations p.AnnotationKey ""))) ∧
      (∃ (q : DynamicNamespacePredicate) (n : Namespace),
        "" ∈ GoSlice.elems q.LabelValues ∧ GoMap.get? n.Labels q.LabelKey = none ∧
          CheckNamespace q n = true) := by
  refine ⟨fun h => ?_, fun h => ?_, ?_⟩
  · simp only [CheckNamespace, index_set_empty_of_absent h]
  · simp only [CheckNamespace, index_set_empty_of_absent h]
  · exact ⟨DynamicNamespacePredicate.mk "app" (some ["", "staging"]) "env" none,
      Namespace.mk "ns1" (some [("team", "core")]) none, by decide, by decide, by decide⟩

/-- C14 at a concrete input: the labels `{team: core}` lack the key `app`; with the allowed
label values `["", "staging"]` the result is `true` on them and on the labels
`{app: "", team: core}` alike. -/
theorem C14_absent_key_as_empty_value_witness :
    CheckNamespace (DynamicNamespacePredicate.mk "app" (some ["", "staging"]) "env" none)
        (Namespace.mk "ns1" (some [("team", "core")]) none) =
      CheckNamespace (DynamicNamespacePredicate.mk "app" (some ["", "staging"]) "env" none)
        (Namespace.mk "ns1" (some [("app", ""), ("team", "core")]) none) :=
  (C14_absent_key_as_empty_value
    (DynamicNamespacePredicate.mk "app" (some ["", "staging"]) "env" none)
    (Namespace.mk "ns1" (some [("team", "core")]) none)).1 (by decide)

/-- C15: allowed values behave as a set. Two predicates with the same keys whose allowed
label values have the same elements and whose allowed annotation values have the same
elements (in any order, with any multiplicities) give the same result on every namespace;
and when every allowed value of the first is an allowed value of the second, as after
extending a list, a `true` result of the first is a `true` result of the second. -/
theorem C15_allowed_values_as_set (labelKey annotationKey : String)
    (labelValues1 labelValues2 annotationValues1 annotationValues2 : GoSlice)
    (ns : Namespace) :
    ((∀ x, x ∈ GoSlice.elems labelValues1 ↔ x ∈ GoSlice.elems labelValues2) →
        (∀ x, x ∈ GoSlice.elems annotationValues1 ↔ x ∈ GoSlice.elems annotationValues2) →
          CheckNamespace
              (DynamicNamespacePredicate.mk labelKey labelValues1 annotationKey
                annotationValues1) ns =
            CheckNamespace
              (DynamicNamespacePredicate.mk labelKey labelValues2 annotationKey
                annotationValues2) ns) ∧
      ((∀ x, x ∈ GoSlice.elems labelValues1 → x ∈ GoSlice.elems labelValues2) →
        (∀ x, x ∈ GoSlice.elems annotationValues1 → x ∈ GoSlice.elems annotationValues2) →
          CheckNamespace
              (DynamicNamespacePredicate.mk labelKey labelValues1 annotationKey
                annotationValues1) ns = true →
            CheckNamespace
              (DynamicNamespacePredicate.mk labelKey labelValues2 annotationKey
                annotationValues2) ns = true) ∧
      (∀ moreLabelValues moreAnnotationValues : List String,
        CheckNamespace
            (DynamicNamespacePredicate.mk labelKey labelValues1 annotationKey
              annotationValues1) ns = true →
          CheckNamespace
            (DynamicNamespacePredicate.mk labelKey
              (some (GoSlice.elems labelValues1 ++ moreLabelValues)) annotationKey
              (some (GoSlice.elems annotationValues1 ++ moreAnnotationValues))) ns = true) := by
  have mono : ∀ (lv1 lv2 av1 av2 : GoSlice),
      (∀ x, x ∈ GoSlice.elems lv1 → x ∈ GoSlice.elems lv2) →
      (∀ x, x ∈ GoSlice.elems av1 → x ∈ GoSlice.elems av2) →
      CheckNamespace (DynamicNamespacePredicate.mk labelKey lv1 annotationKey av1) ns = true →
      CheckNamespace (DynamicNamespacePredicate.mk labelKey lv2 annotationKey av2) ns = true := by
    intro lv1 lv2 av1 av2 hl ha h
    rw [CheckNamespace_iff_index] at h ⊢
    exact h.imp (fun c => ⟨c.1, hl _ c.2⟩) (fun c => ⟨c.1, ha _ c.2⟩)
  refine ⟨fun hl ha => ?_, mono _ _ _ _, fun moreL moreA h => ?_⟩
  · rw [Bool.eq_iff_iff]
    exact ⟨mono _ _ _ _ (fun x => (hl x).1) (fun x => (ha x).1),
      mono _ _ _ _ (fun x => (hl x).2) (fun x => (ha x).2)⟩
  · refine mono _ _ _ _ (fun x hx => ?_) (fun x hx => ?_) h
    · exact List.mem_append_left _ hx
    · exact List.mem_append_left _ hx

/-- C15 at a concrete input: the allowed label values `["staging", "production"]` and
`["production", "staging", "production"]` give the same result on the labels
`{app: production}`. -/
theorem C15_allowed_values_as_set_witness :
    CheckNamespace
        (DynamicNamespacePredicate.mk "app" (some ["staging", "production"]) "env" none)
        (Namespace.mk "ns1" (some [("app", "production")]) none) =
      CheckNamespace
        (DynamicNamespacePredicate.mk "app" (some ["production", "staging", "production"])
          "env" none)
        (Namespace.mk "ns1" (some [("app", "production")]) none) :=
  (C15_allowed_values_as_set "app" "env" (some ["staging", "production"])
    (some ["production", "staging", "production"]) none none
    (Namespace.mk "ns1" (some [("app", "production")]) none)).1
    (by simp [GoSlice.elems, or_comm]) (fun _ => Iff.rfl)

end NamespacedController
